import Mathlib

/-!
Verification of the isucon14 dispatch-matching engine (`internal_handlers.go`)
and payment-settlement client (`payment_gateway.go`).

Shallow embedding conventions:
* database rows become Lean structures; coordinate values stored in the
  database are modelled as rationals, while the haversine computation (Go
  `float64` trigonometry) is modelled over the reals;
* each HTTP round trip of the settlement client is abstracted as an
  environment giving, per attempt index, the outcome the Go `http.Client.Do`
  call produced (transport error or a status code with a decoded body);
* the matching handler's transaction is modelled by buffering writes: the
  handler returns the database either unchanged (rollback paths) or with all
  writes applied (commit path), together with an outcome and a trace of the
  database operations it performed, in order.
-/

/-! ## Data model: rides and chairs -/

/-- A row of the `chairs` table joined with its latest `chair_locations` row,
as selected by `findNearestChair`'s query. -/
structure ChairRow where
  id : String
  isActive : Bool
  isInUse : Bool
  latitude : ℚ
  longitude : ℚ
deriving DecidableEq

/-- A row of the `rides` table, with the columns the matching engine touches:
`id`, `pickup_latitude`, `pickup_longitude`, `chair_id` (nullable) and
`created_at`. -/
structure RideRow where
  id : String
  pickupLatitude : ℚ
  pickupLongitude : ℚ
  chairId : Option String
  createdAt : Nat
deriving DecidableEq

/-- Go struct `ChairWithDistance`: a chair with its precomputed distance. -/
structure ChairWithDistance where
  id : String
  latitude : ℚ
  longitude : ℚ
  distance : ℝ

/-! ## Payment settlement client (`payment_gateway.go`) -/

/-- One element of the gateway's `GET /payments` response body
(Go struct `paymentGatewayGetPaymentsResponseOne`). -/
structure PaymentRecord where
  amount : Int
  status : String
deriving DecidableEq

/-- Outcome of one `client.Do` on the `POST /payments` request:
either a transport error or a response with the given status code. -/
inductive PostOutcome
  | transportError
  | statusCode (code : Nat)
deriving DecidableEq

/-- Outcome of one `client.Do` on the `GET /payments` request: a transport
error, or a response with a status code and a decoded body (`none` models a
body that fails JSON decoding). -/
inductive GetOutcome
  | transportError
  | response (code : Nat) (body : Option (List PaymentRecord))
deriving DecidableEq

/-- The error values `requestPaymentGatewayPostPayment` and `verifyPayments`
can produce, mirroring the Go error expressions. -/
inductive GwError
  | postTransportError
  | getTransportError
  | unexpectedStatus (code : Nat)
  | decodeError
  | ridesError
  | countMismatch (rideCount paymentCount : Nat)
  | maxRetryReached (cause : GwError)
deriving DecidableEq

/-- An outbound request actually issued (a `client.Do` call). -/
inductive ReqEv
  | postPayments
  | getPayments
deriving DecidableEq

/-- Environment of one execution of the settlement client: the outcome each
`POST /payments` attempt and each `GET /payments` reconciliation fetch would
produce (indexed by attempt number), and the result of the caller-supplied
`retrieveRidesOrderByCreatedAtAsc` callback (`none` models its error). -/
structure GwEnv where
  post : Nat → PostOutcome
  get : Nat → GetOutcome
  rides : Option (List RideRow)

/-- Go `verifyPayments`: fetch `GET /payments`, require status 200, decode the
body, fetch the local rides, and compare the two counts. -/
def verifyPayments (g : GetOutcome) (rides : Option (List RideRow)) :
    Except GwError Unit :=
  match g with
  | GetOutcome.transportError => Except.error GwError.getTransportError
  | GetOutcome.response code body =>
    if code ≠ 200 then Except.error (GwError.unexpectedStatus code)
    else
      match body with
      | none => Except.error GwError.decodeError
      | some payments =>
        match rides with
        | none => Except.error GwError.ridesError
        | some rs =>
          if rs.length ≠ payments.length then
            Except.error (GwError.countMismatch rs.length payments.length)
          else Except.ok ()

/-- One iteration of the retry loop body in `requestPaymentGatewayPostPayment`:
send `POST /payments`; on a transport error fail; on a non-204 status run
`verifyPayments`; on 204 succeed.  The second component records the outbound
requests the iteration issued. -/
def paymentAttempt (env : GwEnv) (k : Nat) : Except GwError Unit × List ReqEv :=
  match env.post k with
  | PostOutcome.transportError =>
      (Except.error GwError.postTransportError, [ReqEv.postPayments])
  | PostOutcome.statusCode code =>
      if code ≠ 204 then
        (verifyPayments (env.get k) env.rides, [ReqEv.postPayments, ReqEv.getPayments])
      else (Except.ok (), [ReqEv.postPayments])

/-- The retry loop of `requestPaymentGatewayPostPayment`.  `fuel` is the number
of retries still allowed (Go: `maxRetry - retry`); when an attempt fails with
no retries left, the last error is wrapped in `maximum retry limit reached`. -/
def requestLoop (env : GwEnv) : Nat → Nat → Except GwError Unit × List ReqEv
  | k, 0 =>
    let p := paymentAttempt env k
    match p.1 with
    | Except.ok _ => (Except.ok (), p.2)
    | Except.error e => (Except.error (GwError.maxRetryReached e), p.2)
  | k, fuel + 1 =>
    let p := paymentAttempt env k
    match p.1 with
    | Except.ok _ => (Except.ok (), p.2)
    | Except.error _ =>
      let q := requestLoop env (k + 1) fuel
      (q.1, p.2 ++ q.2)

/-- Go `requestPaymentGatewayPostPayment`: the retry loop started with
`retry = 0` and `maxRetry = 5`. -/
def requestPaymentGatewayPostPayment (env : GwEnv) :
    Except GwError Unit × List ReqEv :=
  requestLoop env 0 5

/-- Is an outbound request a `POST /payments` submission? -/
def isPost : ReqEv → Bool
  | ReqEv.postPayments => true
  | ReqEv.getPayments => false

/-- Number of `POST /payments` submissions in a request trace. -/
def countPosts (evs : List ReqEv) : Nat := (evs.filter isPost).length

/-! ## Dispatch matching engine (`internal_handlers.go`) -/

open Classical in
/-- Go `math.Atan2 y x`: the angle of the point `(x, y)`, in `(-π, π]`. -/
noncomputable def atan2 (y x : ℝ) : ℝ :=
  if 0 < x then Real.arctan (y / x)
  else if x < 0 then
    if 0 ≤ y then Real.arctan (y / x) + Real.pi
    else Real.arctan (y / x) - Real.pi
  else
    if 0 < y then Real.pi / 2
    else if y < 0 then -(Real.pi / 2)
    else 0

/-- Go `calculateDistance`: the haversine distance between two points, on a
sphere of radius 6371 km, with the coordinates in degrees.  The Go `float64`
arithmetic is modelled over the reals. -/
noncomputable def calculateDistance (lat1 lng1 lat2 lng2 : ℝ) : ℝ :=
  let earthRadius : ℝ := 6371
  let lat1Rad := lat1 * Real.pi / 180
  let lng1Rad := lng1 * Real.pi / 180
  let lat2Rad := lat2 * Real.pi / 180
  let lng2Rad := lng2 * Real.pi / 180
  let dLat := lat2Rad - lat1Rad
  let dLng := lng2Rad - lng1Rad
  let a := Real.sin (dLat / 2) * Real.sin (dLat / 2) +
    Real.cos lat1Rad * Real.cos lat2Rad * Real.sin (dLng / 2) * Real.sin (dLng / 2)
  let c := 2 * atan2 (Real.sqrt a) (Real.sqrt (1 - a))
  earthRadius * c

/-- Distance from a ride's pickup point to a chair row, as computed inside the
`findNearestChair` loop. -/
noncomputable def chairDistance (ride : RideRow) (c : ChairRow) : ℝ :=
  calculateDistance (ride.pickupLatitude : ℝ) (ride.pickupLongitude : ℝ)
    (c.latitude : ℝ) (c.longitude : ℝ)

/-- The rows returned by `findNearestChair`'s query: chairs with
`is_active = TRUE AND is_in_use = FALSE` whose location lies in the given
bounding box. -/
def eligibleInBox (chairs : List ChairRow) (minLat maxLat minLng maxLng : ℚ) :
    List ChairRow :=
  chairs.filter fun c =>
    c.isActive && !c.isInUse &&
    decide (minLat ≤ c.latitude) && decide (c.latitude ≤ maxLat) &&
    decide (minLng ≤ c.longitude) && decide (c.longitude ≤ maxLng)

open Classical in
/-- The row-scanning loop of `findNearestChair`: keep the chair with the
smallest computed distance, starting from `nearestChair = nil`.  A strictly
smaller distance replaces the current best, so ties keep the earlier row. -/
noncomputable def nearestFold (ride : RideRow) :
    Option ChairWithDistance → List ChairRow → Option ChairWithDistance
  | acc, [] => acc
  | acc, c :: rest =>
    let distance := chairDistance ride c
    match acc with
    | none => nearestFold ride (some ⟨c.id, c.latitude, c.longitude, distance⟩) rest
    | some n =>
      if distance < n.distance then
        nearestFold ride (some ⟨c.id, c.latitude, c.longitude, distance⟩) rest
      else nearestFold ride (some n) rest

/-- Go `findNearestChair`: query the eligible chairs in the bounding box and
scan them for the minimal haversine distance; `none` models the
`sql.ErrNoRows` result when no row matched. -/
noncomputable def findNearestChair (chairs : List ChairRow) (ride : RideRow)
    (minLat maxLat minLng maxLng : ℚ) : Option ChairWithDistance :=
  nearestFold ride none (eligibleInBox chairs minLat maxLat minLng maxLng)

/-- Modelled from the spec: `calculateBoundingBox` is called by
`graduallyExpandSearch` but its definition is not among the provided source
files.  The spec says: "compute a bounding box of half-width `r` in both
latitude and longitude around the pickup point".  Returns
`(minLat, maxLat, minLng, maxLng)`. -/
def calculateBoundingBox (lat lng r : ℚ) : ℚ × ℚ × ℚ × ℚ :=
  (lat - r, lat + r, lng - r, lng + r)

/-- One radius step of the expanding search: the nearest eligible chair inside
the bounding box of half-width `r` around the ride's pickup point. -/
noncomputable def chairAtRadius (chairs : List ChairRow) (ride : RideRow) (r : ℚ) :
    Option ChairWithDistance :=
  match calculateBoundingBox ride.pickupLatitude ride.pickupLongitude r with
  | (minLat, maxLat, minLng, maxLng) =>
    findNearestChair chairs ride minLat maxLat minLng maxLng

/-- A database operation performed by the matching handler, in program order.
`beginTx`/`commitTx`/`rollbackTx` delimit the transaction, `lockRide` is the
`SELECT ... FOR UPDATE` that picks (and row-locks) the ride, `chairQuery` is
one bounding-box query of the expanding search, `sleep` is the 100 ms pause
between expansion steps, and `writeRide`/`writeChair` are the two `UPDATE`
statements. -/
inductive Ev
  | beginTx
  | lockRide (rideId : String)
  | chairQuery (radius : ℚ)
  | sleep
  | writeRide (rideId chairId : String)
  | writeChair (chairId : String)
  | commitTx
  | rollbackTx
deriving DecidableEq

/-- The loop of `graduallyExpandSearch`, with the remaining iteration count as
fuel.  While `currentDistance ≤ maxDistance`: query the current bounding box;
return the chair if one was found; otherwise grow the radius by
`stepDistance`, sleep, and continue.  The trace records the queries and the
sleeps in order. -/
noncomputable def graduallyExpandSearchAux (chairs : List ChairRow) (ride : RideRow)
    (maxDistance stepDistance : ℚ) : ℚ → Nat → Option ChairWithDistance × List Ev
  | _, 0 => (none, [])
  | currentDistance, fuel + 1 =>
    if currentDistance ≤ maxDistance then
      match chairAtRadius chairs ride currentDistance with
      | some chair => (some chair, [Ev.chairQuery currentDistance])
      | none =>
        let p := graduallyExpandSearchAux chairs ride maxDistance stepDistance
          (currentDistance + stepDistance) fuel
        (p.1, Ev.chairQuery currentDistance :: Ev.sleep :: p.2)
    else (none, [])

/-- Enough fuel for every iteration the Go loop can perform when
`stepDistance > 0`. -/
def searchFuel (maxDistance stepDistance : ℚ) : Nat :=
  ⌈maxDistance / stepDistance⌉₊ + 1

/-- Go `graduallyExpandSearch`: the expanding-radius loop started at
`currentDistance = stepDistance`; `none` models the `nil, nil` return when the
radius exceeds `maxDistance` with no chair found. -/
noncomputable def graduallyExpandSearch (chairs : List ChairRow) (ride : RideRow)
    (maxDistance stepDistance : ℚ) : Option ChairWithDistance × List Ev :=
  graduallyExpandSearchAux chairs ride maxDistance stepDistance stepDistance
    (searchFuel maxDistance stepDistance)

/-- The scan underlying `SELECT ... WHERE chair_id IS NULL ORDER BY created_at
LIMIT 1`: keep the first row with the smallest `created_at`. -/
def oldestFold : Option RideRow → List RideRow → Option RideRow
  | acc, [] => acc
  | acc, r :: rest =>
    match acc with
    | none => oldestFold (some r) rest
    | some b =>
      if r.createdAt < b.createdAt then oldestFold (some r) rest
      else oldestFold (some b) rest

/-- The ride-selection query of `internalGetMatching`: among rides with
`chair_id IS NULL`, the one with the earliest `created_at` (the row the
`FOR UPDATE` clause locks). -/
def selectOldestUnmatched (rides : List RideRow) : Option RideRow :=
  oldestFold none (rides.filter fun r => r.chairId.isNone)

/-- `UPDATE rides SET chair_id = ? WHERE id = ?`. -/
def updateRideChair (rides : List RideRow) (rid cid : String) : List RideRow :=
  rides.map fun r =>
    if r.id = rid then ⟨r.id, r.pickupLatitude, r.pickupLongitude, some cid, r.createdAt⟩
    else r

/-- `UPDATE chairs SET is_in_use = TRUE WHERE id = ?`. -/
def updateChairInUse (chairs : List ChairRow) (cid : String) : List ChairRow :=
  chairs.map fun c =>
    if c.id = cid then ⟨c.id, c.isActive, true, c.latitude, c.longitude⟩
    else c

/-- The persistent state the matching engine touches. -/
structure DB where
  rides : List RideRow
  chairs : List ChairRow
deriving DecidableEq

/-- Outcome of one invocation of the matching handler. -/
inductive MatchOutcome
  | noRide
  | noChair
  | matched (rideId chairId : String)
  | failure
deriving DecidableEq

/-- Failure injection for the storage operations of the assignment phase:
whether each `UPDATE`, and the final `COMMIT`, fails. -/
structure FaultSpec where
  failRideUpdate : Bool
  failChairUpdate : Bool
  failCommit : Bool
deriving DecidableEq

/-- Go `internalGetMatching`: one invocation of the matching handler.  The
transaction is modelled by buffering: every error path returns the database
unchanged (the deferred `tx.Rollback()`), and only the final commit returns
the database with both updates applied.  The trace lists the database
operations in program order; `maxDistance = 150.0`, `stepDistance = 25.0` as
in the source. -/
noncomputable def internalGetMatching (db : DB) (f : FaultSpec) :
    DB × MatchOutcome × List Ev :=
  match selectOldestUnmatched db.rides with
  | none => (db, MatchOutcome.noRide, [Ev.beginTx, Ev.rollbackTx])
  | some ride =>
    let p := graduallyExpandSearch db.chairs ride 150 25
    match p.1 with
    | none =>
      (db, MatchOutcome.noChair,
        Ev.beginTx :: Ev.lockRide ride.id :: p.2 ++ [Ev.rollbackTx])
    | some chair =>
      if f.failRideUpdate then
        (db, MatchOutcome.failure,
          Ev.beginTx :: Ev.lockRide ride.id :: p.2 ++ [Ev.rollbackTx])
      else if f.failChairUpdate then
        (db, MatchOutcome.failure,
          Ev.beginTx :: Ev.lockRide ride.id :: p.2 ++
            [Ev.writeRide ride.id chair.id, Ev.rollbackTx])
      else if f.failCommit then
        (db, MatchOutcome.failure,
          Ev.beginTx :: Ev.lockRide ride.id :: p.2 ++
            [Ev.writeRide ride.id chair.id, Ev.writeChair chair.id, Ev.rollbackTx])
      else
        (⟨updateRideChair db.rides ride.id chair.id, updateChairInUse db.chairs chair.id⟩,
          MatchOutcome.matched ride.id chair.id,
          Ev.beginTx :: Ev.lockRide ride.id :: p.2 ++
            [Ev.writeRide ride.id chair.id, Ev.writeChair chair.id, Ev.commitTx])

/-! ## Lemmas about the settlement client -/

/-- Every iteration of the retry loop issues exactly one `POST /payments`. -/
lemma paymentAttempt_countPosts (env : GwEnv) (k : Nat) :
    countPosts (paymentAttempt env k).2 = 1 := by
  cases h : env.post k
  · simp [paymentAttempt, h, countPosts, isPost]
  · simp only [paymentAttempt, h]
    split <;> simp [countPosts, isPost]

/-- A successful iteration ends the loop with that iteration's requests. -/
lemma requestLoop_ok (env : GwEnv) (k fuel : Nat)
    (h : (paymentAttempt env k).1 = Except.ok ()) :
    requestLoop env k fuel = (Except.ok (), (paymentAttempt env k).2) := by
  cases fuel <;> simp [requestLoop, h]

/-- A failing iteration with no retries left wraps the last error. -/
lemma requestLoop_err_zero (env : GwEnv) (k : Nat) (e : GwError)
    (h : (paymentAttempt env k).1 = Except.error e) :
    requestLoop env k 0 =
      (Except.error (GwError.maxRetryReached e), (paymentAttempt env k).2) := by
  simp [requestLoop, h]

/-- A failing iteration with retries left continues with the next attempt. -/
lemma requestLoop_err_succ (env : GwEnv) (k fuel : Nat) (e : GwError)
    (h : (paymentAttempt env k).1 = Except.error e) :
    requestLoop env k (fuel + 1) =
      ((requestLoop env (k + 1) fuel).1,
        (paymentAttempt env k).2 ++ (requestLoop env (k + 1) fuel).2) := by
  simp [requestLoop, h]

/-- `countPosts` is additive over trace concatenation. -/
lemma countPosts_append (a b : List ReqEv) :
    countPosts (a ++ b) = countPosts a + countPosts b := by
  simp [countPosts, List.filter_append]

/-- When all six attempts fail, the client makes exactly six submissions and
wraps the last attempt's error. -/
lemma requestLoop_allFail (env : GwEnv)
    (h : ∀ k, k < 6 → ∃ e, (paymentAttempt env k).1 = Except.error e) :
    ∃ e, (paymentAttempt env 5).1 = Except.error e ∧
      (requestPaymentGatewayPostPayment env).1 =
        Except.error (GwError.maxRetryReached e) ∧
      countPosts (requestPaymentGatewayPostPayment env).2 = 6 := by
  obtain ⟨e0, h0⟩ := h 0 (by norm_num)
  obtain ⟨e1, h1⟩ := h 1 (by norm_num)
  obtain ⟨e2, h2⟩ := h 2 (by norm_num)
  obtain ⟨e3, h3⟩ := h 3 (by norm_num)
  obtain ⟨e4, h4⟩ := h 4 (by norm_num)
  obtain ⟨e5, h5⟩ := h 5 (by norm_num)
  have E5 := requestLoop_err_zero env 5 e5 h5
  have E4 := requestLoop_err_succ env 4 0 e4 h4
  have E3 := requestLoop_err_succ env 3 1 e3 h3
  have E2 := requestLoop_err_succ env 2 2 e2 h2
  have E1 := requestLoop_err_succ env 1 3 e1 h1
  have E0 := requestLoop_err_succ env 0 4 e0 h0
  norm_num at E4 E3 E2 E1 E0
  rw [E5] at E4
  rw [E4] at E3
  rw [E3] at E2
  rw [E2] at E1
  rw [E1] at E0
  refine ⟨e5, h5, ?_, ?_⟩
  · simp [requestPaymentGatewayPostPayment, E0]
  · simp [requestPaymentGatewayPostPayment, E0, countPosts_append,
      paymentAttempt_countPosts]

/-! ## Claim theorems: settlement client -/

/-- **C7.** If the first `POST /payments` receives status 204 (no content), the
client returns success, performs no reconciliation fetch and makes no retry:
the request trace is exactly one `POST`. -/
theorem claim_c7_first_submission_success (env : GwEnv)
    (h : env.post 0 = PostOutcome.statusCode 204) :
    requestPaymentGatewayPostPayment env = (Except.ok (), [ReqEv.postPayments]) := by
  have ha : paymentAttempt env 0 = (Except.ok (), [ReqEv.postPayments]) := by
    simp [paymentAttempt, h]
  have hl := requestLoop_ok env 0 5 (by rw [ha])
  rw [requestPaymentGatewayPostPayment, hl, ha]

/-- Witness for C7 at a concrete environment. -/
def envOk : GwEnv :=
  ⟨fun _ => PostOutcome.statusCode 204, fun _ => GetOutcome.transportError, none⟩

/-- C7 applied to `envOk`: one accepted submission, trace `[POST]`. -/
theorem claim_c7_witness :
    envOk.post 0 = PostOutcome.statusCode 204 ∧
    requestPaymentGatewayPostPayment envOk = (Except.ok (), [ReqEv.postPayments]) :=
  ⟨rfl, claim_c7_first_submission_success envOk rfl⟩

/-- **C3.** After a failed submission (non-204 status) whose reconciliation
fetch returns status 200 with a decoded record list: if the record count
equals the caller's ride count, the loop ends successfully having issued only
that attempt's `POST` and `GET` (no further submission); if the counts differ,
the reconciliation pass fails with the count-mismatch error and the loop
proceeds to retry the submission (attempt `k + 1`). -/
theorem claim_c3_reconciliation (env : GwEnv) (k fuel code : Nat)
    (payments : List PaymentRecord) (rs : List RideRow)
    (hpost : env.post k = PostOutcome.statusCode code) (hcode : code ≠ 204)
    (hget : env.get k = GetOutcome.response 200 (some payments))
    (hrides : env.rides = some rs) :
    (payments.length = rs.length →
      requestLoop env k fuel =
        (Except.ok (), [ReqEv.postPayments, ReqEv.getPayments])) ∧
    (payments.length ≠ rs.length →
      (paymentAttempt env k).1 =
        Except.error (GwError.countMismatch rs.length payments.length) ∧
      ∀ f, fuel = f + 1 →
        requestLoop env k fuel =
          ((requestLoop env (k + 1) f).1,
            ReqEv.postPayments :: ReqEv.getPayments ::
              (requestLoop env (k + 1) f).2)) := by
  constructor
  · intro hlen
    have ha : paymentAttempt env k =
        (Except.ok (), [ReqEv.postPayments, ReqEv.getPayments]) := by
      simp [paymentAttempt, hpost, hcode, verifyPayments, hget, hrides, hlen]
    have hl := requestLoop_ok env k fuel (by rw [ha])
    rw [hl, ha]
  · intro hlen
    have ha1 : (paymentAttempt env k).1 =
        Except.error (GwError.countMismatch rs.length payments.length) := by
      simp [paymentAttempt, hpost, hcode, verifyPayments, hget, hrides,
        Ne.symm hlen]
    refine ⟨ha1, ?_⟩
    intro f hf
    subst hf
    have hl := requestLoop_err_succ env k f _ ha1
    have ht : (paymentAttempt env k).2 =
        [ReqEv.postPayments, ReqEv.getPayments] := by
      simp [paymentAttempt, hpost, hcode]
    rw [hl, ht]
    rfl

/-- Witness environment for C3: first submission rejected with status 500,
reconciliation finds one gateway record and one local ride. -/
def envRecon : GwEnv :=
  ⟨fun _ => PostOutcome.statusCode 500,
   fun _ => GetOutcome.response 200 (some [⟨100, "succeeded"⟩]),
   some [⟨"r1", 0, 0, some "c1", 0⟩]⟩

/-- C3 applied to `envRecon`: matching counts end the loop with one `POST` and
one `GET`. -/
theorem claim_c3_witness :
    envRecon.post 0 = PostOutcome.statusCode 500 ∧ (500 : Nat) ≠ 204 ∧
    envRecon.get 0 = GetOutcome.response 200 (some [⟨100, "succeeded"⟩]) ∧
    envRecon.rides = some [⟨"r1", 0, 0, some "c1", 0⟩] ∧
    requestLoop envRecon 0 5 =
      (Except.ok (), [ReqEv.postPayments, ReqEv.getPayments]) :=
  ⟨rfl, by decide, rfl, rfl,
    (claim_c3_reconciliation envRecon 0 5 500 [⟨100, "succeeded"⟩]
      [⟨"r1", 0, 0, some "c1", 0⟩] rfl (by decide) rfl rfl).1 rfl⟩

/-- **C4.** If every one of the six possible attempts fails, the client makes
exactly `maxRetry + 1 = 6` submissions and returns the terminal
`maximum retry limit reached` error wrapping the last attempt's cause. -/
theorem claim_c4_retry_exhaustion (env : GwEnv)
    (h : ∀ k, k < 6 → ∃ e, (paymentAttempt env k).1 = Except.error e) :
    ∃ e, (paymentAttempt env 5).1 = Except.error e ∧
      (requestPaymentGatewayPostPayment env).1 =
        Except.error (GwError.maxRetryReached e) ∧
      countPosts (requestPaymentGatewayPostPayment env).2 = 6 :=
  requestLoop_allFail env h

/-- Witness environment for C4: every `client.Do` call fails. -/
def envFailAll : GwEnv :=
  ⟨fun _ => PostOutcome.transportError, fun _ => GetOutcome.transportError, none⟩

/-- C4 applied to `envFailAll`. -/
theorem claim_c4_witness :
    (∀ k, k < 6 → ∃ e, (paymentAttempt envFailAll k).1 = Except.error e) ∧
    ∃ e, (paymentAttempt envFailAll 5).1 = Except.error e ∧
      (requestPaymentGatewayPostPayment envFailAll).1 =
        Except.error (GwError.maxRetryReached e) ∧
      countPosts (requestPaymentGatewayPostPayment envFailAll).2 = 6 :=
  ⟨fun _ _ => ⟨GwError.postTransportError, rfl⟩,
    claim_c4_retry_exhaustion envFailAll
      (fun _ _ => ⟨GwError.postTransportError, rfl⟩)⟩

/-- **C10.** The reconciliation pass never inspects the `status` field of the
gateway's records: two responses with the same status code whose record lists
have the same length reconcile identically, whatever the record statuses. -/
theorem claim_c10_status_ignored (code : Nat) (p1 p2 : List PaymentRecord)
    (rides : Option (List RideRow)) (h : p1.length = p2.length) :
    verifyPayments (GetOutcome.response code (some p1)) rides =
    verifyPayments (GetOutcome.response code (some p2)) rides := by
  rcases rides with _ | rs <;> simp [verifyPayments, h]

/-- C10 applied to records that differ only in `status` (one marked
`"failed"`): both reconcile successfully against one local ride. -/
theorem claim_c10_witness :
    ([⟨100, "succeeded"⟩] : List PaymentRecord).length =
      ([⟨100, "failed"⟩] : List PaymentRecord).length ∧
    verifyPayments (GetOutcome.response 200 (some [⟨100, "succeeded"⟩]))
        (some [⟨"r1", 0, 0, some "c1", 0⟩]) =
      verifyPayments (GetOutcome.response 200 (some [⟨100, "failed"⟩]))
        (some [⟨"r1", 0, 0, some "c1", 0⟩]) :=
  ⟨rfl, claim_c10_status_ignored 200 [⟨100, "succeeded"⟩] [⟨100, "failed"⟩]
    (some [⟨"r1", 0, 0, some "c1", 0⟩]) rfl⟩

/-- Environment modelling a cancelled caller context: every in-flight
`client.Do` call (submission or reconciliation fetch) fails with the
cancellation error. -/
def envCancelled : GwEnv :=
  ⟨fun _ => PostOutcome.transportError, fun _ => GetOutcome.transportError,
   some []⟩

/-- **C9 counterexample.** Under a cancelled context the claim says the client
reports failure immediately with no retry scheduled (a single submission); but
the code retries after every failure regardless of its cause: six submissions
are issued before the wrapped terminal error is returned. -/
theorem claim_c9_counterexample :
    countPosts (requestPaymentGatewayPostPayment envCancelled).2 = 6 ∧
    countPosts (requestPaymentGatewayPostPayment envCancelled).2 ≠ 1 ∧
    (requestPaymentGatewayPostPayment envCancelled).1 =
      Except.error (GwError.maxRetryReached GwError.postTransportError) := by
  refine ⟨by decide, by decide, rfl⟩

/-- **C9 amended.** When every in-flight request fails (as under a cancelled
caller context), the client does not stop: it schedules retries like any other
failure, issues all six submissions, and only then reports the terminal
wrapped failure to the caller. -/
theorem claim_c9_cancellation_retries (env : GwEnv)
    (h : ∀ k, env.post k = PostOutcome.transportError) :
    (requestPaymentGatewayPostPayment env).1 =
      Except.error (GwError.maxRetryReached GwError.postTransportError) ∧
    countPosts (requestPaymentGatewayPostPayment env).2 = 6 := by
  have ha : ∀ k, (paymentAttempt env k).1 =
      Except.error GwError.postTransportError := by
    intro k; simp [paymentAttempt, h k]
  obtain ⟨e, he, hr, hc⟩ :=
    requestLoop_allFail env (fun k _ => ⟨GwError.postTransportError, ha k⟩)
  have : e = GwError.postTransportError := by
    have h5 := ha 5
    rw [he] at h5
    exact (Except.error.injEq _ _).mp h5.symm |>.symm ▸ rfl
  subst this
  exact ⟨hr, hc⟩

/-- C9 (amended) applied to `envCancelled`. -/
theorem claim_c9_witness :
    (∀ k, envCancelled.post k = PostOutcome.transportError) ∧
    (requestPaymentGatewayPostPayment envCancelled).1 =
      Except.error (GwError.maxRetryReached GwError.postTransportError) ∧
    countPosts (requestPaymentGatewayPostPayment envCancelled).2 = 6 :=
  ⟨fun _ => rfl, claim_c9_cancellation_retries envCancelled (fun _ => rfl)⟩

/-! ## Lemmas about the nearest-chair scan -/

/-- The `ChairWithDistance` value the scan builds from a row. -/
noncomputable def withDistance (ride : RideRow) (c : ChairRow) : ChairWithDistance :=
  ⟨c.id, c.latitude, c.longitude, chairDistance ride c⟩

/-- Scanning from a current best yields a best that is no farther, comes from
the current best or the scanned rows, and is no farther than any scanned row. -/
lemma nearestFold_some_spec (ride : RideRow) (l : List ChairRow) :
    ∀ n : ChairWithDistance,
      ∃ m, nearestFold ride (some n) l = some m ∧ m.distance ≤ n.distance ∧
        (m = n ∨ ∃ c ∈ l, m = withDistance ride c) ∧
        ∀ c ∈ l, m.distance ≤ chairDistance ride c := by
  induction l with
  | nil =>
    intro n
    exact ⟨n, rfl, le_refl _, Or.inl rfl, by simp⟩
  | cons c rest ih =>
    intro n
    by_cases hd : chairDistance ride c < n.distance
    · obtain ⟨m, hm, hle, hfrom, hall⟩ := ih (withDistance ride c)
      have hstep : nearestFold ride (some n) (c :: rest) =
          nearestFold ride (some (withDistance ride c)) rest := by
        simp only [nearestFold, withDistance]
        rw [if_pos hd]
      refine ⟨m, by rw [hstep]; exact hm, ?_, ?_, ?_⟩
      · exact le_trans hle (le_of_lt hd)
      · rcases hfrom with h1 | ⟨c2, hc2, hm2⟩
        · exact Or.inr ⟨c, List.mem_cons_self c rest, h1⟩
        · exact Or.inr ⟨c2, List.mem_cons_of_mem c hc2, hm2⟩
      · intro c2 hc2
        rcases List.mem_cons.mp hc2 with h1 | h1
        · subst h1; exact hle
        · exact hall c2 h1
    · obtain ⟨m, hm, hle, hfrom, hall⟩ := ih n
      have hstep : nearestFold ride (some n) (c :: rest) =
          nearestFold ride (some n) rest := by
        simp only [nearestFold]
        rw [if_neg hd]
      refine ⟨m, by rw [hstep]; exact hm, hle, ?_, ?_⟩
      · rcases hfrom with h1 | ⟨c2, hc2, hm2⟩
        · exact Or.inl h1
        · exact Or.inr ⟨c2, List.mem_cons_of_mem c hc2, hm2⟩
      · intro c2 hc2
        rcases List.mem_cons.mp hc2 with h1 | h1
        · subst h1; exact le_trans hle (not_lt.mp hd)
        · exact hall c2 h1

/-- Starting the scan on a nonempty row list from `nil` takes the first row
unconditionally. -/
lemma nearestFold_none_cons (ride : RideRow) (c : ChairRow) (rest : List ChairRow) :
    nearestFold ride none (c :: rest) =
      nearestFold ride (some (withDistance ride c)) rest := by
  simp only [nearestFold, withDistance]

/-- A nonempty candidate set yields a best row that is one of the candidates
and minimizes the computed distance over all of them. -/
lemma findNearestChair_spec (chairs : List ChairRow) (ride : RideRow)
    (minLat maxLat minLng maxLng : ℚ)
    (h : eligibleInBox chairs minLat maxLat minLng maxLng ≠ []) :
    ∃ best, findNearestChair chairs ride minLat maxLat minLng maxLng = some best ∧
      (∃ c ∈ eligibleInBox chairs minLat maxLat minLng maxLng,
        best = withDistance ride c) ∧
      ∀ c ∈ eligibleInBox chairs minLat maxLat minLng maxLng,
        best.distance ≤ chairDistance ride c := by
  rcases hl : eligibleInBox chairs minLat maxLat minLng maxLng with _ | ⟨c, rest⟩
  · exact absurd hl h
  · obtain ⟨m, hm, hle, hfrom, hall⟩ := nearestFold_some_spec ride rest (withDistance ride c)
    refine ⟨m, ?_, ?_, ?_⟩
    · simp only [findNearestChair]
      rw [hl, nearestFold_none_cons, hm]
    · rcases hfrom with h1 | ⟨c2, hc2, hm2⟩
      · exact ⟨c, List.mem_cons_self c rest, h1⟩
      · exact ⟨c2, List.mem_cons_of_mem c hc2, hm2⟩
    · intro c2 hc2
      rcases List.mem_cons.mp hc2 with h1 | h1
      · subst h1; exact hle
      · exact hall c2 h1

/-- The scan returns `none` exactly when the query returned no rows. -/
lemma findNearestChair_none_iff (chairs : List ChairRow) (ride : RideRow)
    (minLat maxLat minLng maxLng : ℚ) :
    findNearestChair chairs ride minLat maxLat minLng maxLng = none ↔
      eligibleInBox chairs minLat maxLat minLng maxLng = [] := by
  rcases hl : eligibleInBox chairs minLat maxLat minLng maxLng with _ | ⟨c, rest⟩
  · simp [findNearestChair, hl, nearestFold]
  · obtain ⟨m, hm, _, _, _⟩ := nearestFold_some_spec ride rest (withDistance ride c)
    simp only [findNearestChair]
    rw [hl, nearestFold_none_cons, hm]
    simp

/-- Membership in the query result unfolded: active, not in use, and inside
the box. -/
lemma mem_eligibleInBox (chairs : List ChairRow) (minLat maxLat minLng maxLng : ℚ)
    (c : ChairRow) :
    c ∈ eligibleInBox chairs minLat maxLat minLng maxLng ↔
      c ∈ chairs ∧ c.isActive = true ∧ c.isInUse = false ∧
        minLat ≤ c.latitude ∧ c.latitude ≤ maxLat ∧
        minLng ≤ c.longitude ∧ c.longitude ≤ maxLng := by
  simp [eligibleInBox, List.mem_filter, and_assoc, Bool.and_eq_true,
    decide_eq_true_iff, Bool.not_eq_true']

/-- One radius step finds no chair exactly when its bounding box holds no
eligible chair. -/
lemma chairAtRadius_none_iff (chairs : List ChairRow) (ride : RideRow) (r : ℚ) :
    chairAtRadius chairs ride r = none ↔
      eligibleInBox chairs (ride.pickupLatitude - r) (ride.pickupLatitude + r)
        (ride.pickupLongitude - r) (ride.pickupLongitude + r) = [] := by
  simp [chairAtRadius, calculateBoundingBox, findNearestChair_none_iff]

/-! ## Claim theorem: nearest selection (C1) -/

/-- **C1.** When the bounding-box query returns a nonempty set — membership in
which means exactly: active, not in use, and located inside the box — the scan
returns a chair from that set whose exact haversine distance (sphere radius
6371 km) from the ride's pickup point is minimal over the whole set. -/
theorem claim_c1_nearest_selected (chairs : List ChairRow) (ride : RideRow)
    (minLat maxLat minLng maxLng : ℚ)
    (h : eligibleInBox chairs minLat maxLat minLng maxLng ≠ []) :
    (∀ c, c ∈ eligibleInBox chairs minLat maxLat minLng maxLng ↔
      (c ∈ chairs ∧ c.isActive = true ∧ c.isInUse = false ∧
        minLat ≤ c.latitude ∧ c.latitude ≤ maxLat ∧
        minLng ≤ c.longitude ∧ c.longitude ≤ maxLng)) ∧
    ∃ best, findNearestChair chairs ride minLat maxLat minLng maxLng = some best ∧
      (∃ c ∈ eligibleInBox chairs minLat maxLat minLng maxLng,
        best.id = c.id ∧ best.latitude = c.latitude ∧
        best.longitude = c.longitude ∧
        best.distance = calculateDistance ride.pickupLatitude ride.pickupLongitude
          c.latitude c.longitude) ∧
      ∀ c ∈ eligibleInBox chairs minLat maxLat minLng maxLng,
        best.distance ≤ calculateDistance ride.pickupLatitude ride.pickupLongitude
          c.latitude c.longitude := by
  refine ⟨fun c => mem_eligibleInBox chairs minLat maxLat minLng maxLng c, ?_⟩
  obtain ⟨best, hb, ⟨c, hc, hbc⟩, hmin⟩ :=
    findNearestChair_spec chairs ride minLat maxLat minLng maxLng h
  subst hbc
  exact ⟨withDistance ride c, hb, ⟨c, hc, rfl, rfl, rfl, rfl⟩, hmin⟩

/-- Witness chair for C1. -/
def chairW1 : ChairRow := ⟨"c1", true, false, 1, 2⟩

/-- Witness ride for C1. -/
def rideW1 : RideRow := ⟨"r1", 0, 0, none, 0⟩

/-- C1 applied to a concrete nonempty query result. -/
theorem claim_c1_witness :
    eligibleInBox [chairW1] 0 5 0 5 ≠ [] ∧
    ((∀ c, c ∈ eligibleInBox [chairW1] 0 5 0 5 ↔
      (c ∈ [chairW1] ∧ c.isActive = true ∧ c.isInUse = false ∧
        0 ≤ c.latitude ∧ c.latitude ≤ 5 ∧ 0 ≤ c.longitude ∧ c.longitude ≤ 5)) ∧
    ∃ best, findNearestChair [chairW1] rideW1 0 5 0 5 = some best ∧
      (∃ c ∈ eligibleInBox [chairW1] 0 5 0 5,
        best.id = c.id ∧ best.latitude = c.latitude ∧
        best.longitude = c.longitude ∧
        best.distance = calculateDistance rideW1.pickupLatitude
          rideW1.pickupLongitude c.latitude c.longitude) ∧
      ∀ c ∈ eligibleInBox [chairW1] 0 5 0 5,
        best.distance ≤ calculateDistance rideW1.pickupLatitude
          rideW1.pickupLongitude c.latitude c.longitude) :=
  ⟨by decide, claim_c1_nearest_selected [chairW1] rideW1 0 5 0 5 (by decide)⟩

/-! ## Lemmas about the expanding-radius search -/

/-- Unfolding one loop iteration that finds no chair at the current radius. -/
lemma searchAux_step_none (chairs : List ChairRow) (ride : RideRow)
    (maxD stepD current : ℚ) (n : Nat) (hc : current ≤ maxD)
    (hq : chairAtRadius chairs ride current = none) :
    graduallyExpandSearchAux chairs ride maxD stepD current (n + 1) =
      ((graduallyExpandSearchAux chairs ride maxD stepD (current + stepD) n).1,
        Ev.chairQuery current :: Ev.sleep ::
          (graduallyExpandSearchAux chairs ride maxD stepD (current + stepD) n).2) := by
  simp only [graduallyExpandSearchAux, if_pos hc, hq]

/-- Unfolding one loop iteration that finds a chair at the current radius. -/
lemma searchAux_step_some (chairs : List ChairRow) (ride : RideRow)
    (maxD stepD current : ℚ) (n : Nat) (c : ChairWithDistance)
    (hc : current ≤ maxD) (hq : chairAtRadius chairs ride current = some c) :
    graduallyExpandSearchAux chairs ride maxD stepD current (n + 1) =
      (some c, [Ev.chairQuery current]) := by
  simp only [graduallyExpandSearchAux, if_pos hc, hq]

/-- Unfolding the loop once the radius exceeds the maximum. -/
lemma searchAux_step_over (chairs : List ChairRow) (ride : RideRow)
    (maxD stepD current : ℚ) (n : Nat) (hc : ¬ current ≤ maxD) :
    graduallyExpandSearchAux chairs ride maxD stepD current (n + 1) = (none, []) := by
  simp only [graduallyExpandSearchAux, if_neg hc]

/-- The search comes back empty exactly when every radius the loop visits
(`current + stepD * k` for `k < fuel`, while it does not exceed the maximum)
has no eligible chair. -/
lemma searchAux_none_iff (chairs : List ChairRow) (ride : RideRow)
    (maxD stepD : ℚ) (hs : 0 ≤ stepD) :
    ∀ fuel current,
      ((graduallyExpandSearchAux chairs ride maxD stepD current fuel).1 = none ↔
        ∀ k : Nat, k < fuel → current + stepD * k ≤ maxD →
          chairAtRadius chairs ride (current + stepD * k) = none) := by
  intro fuel
  induction fuel with
  | zero =>
    intro current
    constructor
    · intro _ k hk
      exact absurd hk (Nat.not_lt_zero k)
    · intro _
      simp [graduallyExpandSearchAux]
  | succ n ih =>
    intro current
    by_cases hc : current ≤ maxD
    · rcases hq : chairAtRadius chairs ride current with _ | chair
      · have hfst : (graduallyExpandSearchAux chairs ride maxD stepD current (n + 1)).1 =
            (graduallyExpandSearchAux chairs ride maxD stepD (current + stepD) n).1 := by
          rw [searchAux_step_none chairs ride maxD stepD current n hc hq]
        rw [hfst, ih (current + stepD)]
        constructor
        · intro H k hk hkle
          rcases k with _ | j
          · simpa using hq
          · have hcast : current + stepD * ((j + 1 : ℕ) : ℚ) =
                current + stepD + stepD * (j : ℚ) := by push_cast; ring
            rw [hcast] at hkle ⊢
            exact H j (by omega) hkle
        · intro H k hk hkle
          have hcast : current + stepD + stepD * (k : ℚ) =
              current + stepD * ((k + 1 : ℕ) : ℚ) := by push_cast; ring
          rw [hcast] at hkle ⊢
          exact H (k + 1) (by omega) hkle
      · have hfst : (graduallyExpandSearchAux chairs ride maxD stepD current (n + 1)).1 =
            some chair := by
          rw [searchAux_step_some chairs ride maxD stepD current n chair hc hq]
        rw [hfst]
        constructor
        · intro h
          exact absurd h (by simp)
        · intro H
          have h0 := H 0 (Nat.succ_pos n) (by simpa using hc)
          simp only [Nat.cast_zero, mul_zero, add_zero] at h0
          rw [hq] at h0
          exact h0
    · have hfst : (graduallyExpandSearchAux chairs ride maxD stepD current (n + 1)).1 =
          none := by
        rw [searchAux_step_over chairs ride maxD stepD current n hc]
      rw [hfst]
      constructor
      · intro _ k hk hkle
        exfalso
        have hnn : 0 ≤ stepD * (k : ℚ) := mul_nonneg hs (Nat.cast_nonneg k)
        exact hc (by linarith)
      · intro _
        rfl

/-- If the first `k` visited radii are empty and radius `current + stepD * k`
(not exceeding the maximum) holds a chair, the loop stops there and returns
that chair. -/
lemma searchAux_first_some (chairs : List ChairRow) (ride : RideRow)
    (maxD stepD : ℚ) (hs : 0 ≤ stepD) :
    ∀ fuel current (k : Nat), k < fuel → current + stepD * k ≤ maxD →
      (∀ j : Nat, j < k → chairAtRadius chairs ride (current + stepD * j) = none) →
      ∀ c, chairAtRadius chairs ride (current + stepD * k) = some c →
        (graduallyExpandSearchAux chairs ride maxD stepD current fuel).1 = some c := by
  intro fuel
  induction fuel with
  | zero =>
    intro current k hk
    exact absurd hk (Nat.not_lt_zero k)
  | succ n ih =>
    intro current k hk hkle hprev c hc
    have hcur : current ≤ maxD := by
      have hnn : 0 ≤ stepD * (k : ℚ) := mul_nonneg hs (Nat.cast_nonneg k)
      linarith
    rcases k with _ | j
    · simp only [Nat.cast_zero, mul_zero, add_zero] at hc
      rw [searchAux_step_some chairs ride maxD stepD current n c hcur hc]
    · have h0 : chairAtRadius chairs ride current = none := by
        have h1 := hprev 0 (Nat.succ_pos j)
        simpa using h1
      have hfst : (graduallyExpandSearchAux chairs ride maxD stepD current (n + 1)).1 =
          (graduallyExpandSearchAux chairs ride maxD stepD (current + stepD) n).1 := by
        rw [searchAux_step_none chairs ride maxD stepD current n hcur h0]
      rw [hfst]
      have hcast : current + stepD * ((j + 1 : ℕ) : ℚ) =
          current + stepD + stepD * (j : ℚ) := by push_cast; ring
      rw [hcast] at hkle hc
      refine ih (current + stepD) j (by omega) hkle ?_ c hc
      intro i hi
      have hcast2 : current + stepD + stepD * (i : ℚ) =
          current + stepD * ((i + 1 : ℕ) : ℚ) := by push_cast; ring
      rw [hcast2]
      exact hprev (i + 1) (by omega)

/-- The loop fuel at the source's constants allows all seven loop entries. -/
lemma searchFuel_150_25 : searchFuel 150 25 = 7 := by
  have h : (150 : ℚ) / 25 = ((6 : ℕ) : ℚ) := by norm_num
  rw [searchFuel, h, Nat.ceil_natCast]

/-! ## Lemmas about ride selection and the handler's transaction trace -/

/-- Scanning rides from a current best keeps an earliest `created_at` row. -/
lemma oldestFold_some_spec (l : List RideRow) :
    ∀ b : RideRow,
      ∃ m, oldestFold (some b) l = some m ∧ m.createdAt ≤ b.createdAt ∧
        (m = b ∨ m ∈ l) ∧ ∀ r ∈ l, m.createdAt ≤ r.createdAt := by
  induction l with
  | nil =>
    intro b
    exact ⟨b, rfl, le_refl _, Or.inl rfl, by simp⟩
  | cons r rest ih =>
    intro b
    by_cases hd : r.createdAt < b.createdAt
    · obtain ⟨m, hm, hle, hfrom, hall⟩ := ih r
      have hstep : oldestFold (some b) (r :: rest) = oldestFold (some r) rest := by
        simp only [oldestFold]
        rw [if_pos hd]
      refine ⟨m, by rw [hstep]; exact hm, le_trans hle (le_of_lt hd), ?_, ?_⟩
      · rcases hfrom with h1 | h1
        · exact Or.inr (by rw [h1]; exact List.mem_cons_self r rest)
        · exact Or.inr (List.mem_cons_of_mem r h1)
      · intro r2 hr2
        rcases List.mem_cons.mp hr2 with h1 | h1
        · subst h1; exact hle
        · exact hall r2 h1
    · obtain ⟨m, hm, hle, hfrom, hall⟩ := ih b
      have hstep : oldestFold (some b) (r :: rest) = oldestFold (some b) rest := by
        simp only [oldestFold]
        rw [if_neg hd]
      refine ⟨m, by rw [hstep]; exact hm, hle, ?_, ?_⟩
      · rcases hfrom with h1 | h1
        · exact Or.inl h1
        · exact Or.inr (List.mem_cons_of_mem r h1)
      · intro r2 hr2
        rcases List.mem_cons.mp hr2 with h1 | h1
        · subst h1; exact le_trans hle (not_lt.mp hd)
        · exact hall r2 h1

/-- If an unmatched ride exists, the selection query returns an unmatched ride
with the earliest `created_at` among all unmatched rides. -/
lemma selectOldestUnmatched_spec (rides : List RideRow)
    (h : ∃ r ∈ rides, r.chairId = none) :
    ∃ m, selectOldestUnmatched rides = some m ∧ m ∈ rides ∧ m.chairId = none ∧
      ∀ r ∈ rides, r.chairId = none → m.createdAt ≤ r.createdAt := by
  rcases hl : rides.filter (fun r => r.chairId.isNone) with _ | ⟨b, rest⟩
  · exfalso
    obtain ⟨r, hr, hcn⟩ := h
    have hmem : r ∈ rides.filter (fun r => r.chairId.isNone) :=
      List.mem_filter.mpr ⟨hr, by simp [hcn]⟩
    rw [hl] at hmem
    exact absurd hmem (List.not_mem_nil r)
  · obtain ⟨m, hm, hle, hfrom, hall⟩ := oldestFold_some_spec rest b
    have hmemf : ∀ x, x ∈ b :: rest → x ∈ rides ∧ x.chairId = none := by
      intro x hx
      have hxf : x ∈ rides.filter (fun r => r.chairId.isNone) := by
        rw [hl]; exact hx
      have h2 := List.mem_filter.mp hxf
      exact ⟨h2.1, Option.isNone_iff_eq_none.mp (by simpa using h2.2)⟩
    have hm2 : m ∈ b :: rest := by
      rcases hfrom with h1 | h1
      · rw [h1]; exact List.mem_cons_self b rest
      · exact List.mem_cons_of_mem b h1
    refine ⟨m, ?_, (hmemf m hm2).1, (hmemf m hm2).2, ?_⟩
    · simp only [selectOldestUnmatched]
      rw [hl]
      simp only [oldestFold]
      exact hm
    · intro r hr hrn
      have hrf : r ∈ rides.filter (fun r => r.chairId.isNone) :=
        List.mem_filter.mpr ⟨hr, by simp [hrn]⟩
      rw [hl] at hrf
      rcases List.mem_cons.mp hrf with h1 | h1
      · subst h1; exact hle
      · exact hall r h1

/-- Every event the expanding search emits is a bounding-box query or a sleep
— never a transaction-control or write event. -/
lemma searchAux_trace_events (chairs : List ChairRow) (ride : RideRow)
    (maxD stepD : ℚ) :
    ∀ fuel current e,
      e ∈ (graduallyExpandSearchAux chairs ride maxD stepD current fuel).2 →
      e = Ev.sleep ∨ ∃ r, e = Ev.chairQuery r := by
  intro fuel
  induction fuel with
  | zero =>
    intro current e he
    simp [graduallyExpandSearchAux] at he
  | succ n ih =>
    intro current e he
    by_cases hc : current ≤ maxD
    · rcases hq : chairAtRadius chairs ride current with _ | chair
      · have hsnd : (graduallyExpandSearchAux chairs ride maxD stepD current (n + 1)).2 =
            Ev.chairQuery current :: Ev.sleep ::
              (graduallyExpandSearchAux chairs ride maxD stepD (current + stepD) n).2 := by
          rw [searchAux_step_none chairs ride maxD stepD current n hc hq]
        rw [hsnd] at he
        rcases List.mem_cons.mp he with h1 | h1
        · exact Or.inr ⟨current, h1⟩
        · rcases List.mem_cons.mp h1 with h2 | h2
          · exact Or.inl h2
          · exact ih (current + stepD) e h2
      · have hsnd : (graduallyExpandSearchAux chairs ride maxD stepD current (n + 1)).2 =
            [Ev.chairQuery current] := by
          rw [searchAux_step_some chairs ride maxD stepD current n chair hc hq]
        rw [hsnd] at he
        rcases List.mem_cons.mp he with h1 | h1
        · exact Or.inr ⟨current, h1⟩
        · exact absurd h1 (List.not_mem_nil e)
    · have hsnd : (graduallyExpandSearchAux chairs ride maxD stepD current (n + 1)).2 =
          [] := by
        rw [searchAux_step_over chairs ride maxD stepD current n hc]
      rw [hsnd] at he
      exact absurd he (List.not_mem_nil e)

/-- The search trace holds no transaction-control events. -/
lemma search_trace_no_tx (chairs : List ChairRow) (ride : RideRow)
    (maxD stepD : ℚ) :
    Ev.beginTx ∉ (graduallyExpandSearch chairs ride maxD stepD).2 ∧
    Ev.commitTx ∉ (graduallyExpandSearch chairs ride maxD stepD).2 ∧
    Ev.rollbackTx ∉ (graduallyExpandSearch chairs ride maxD stepD).2 := by
  refine ⟨fun h => ?_, fun h => ?_, fun h => ?_⟩ <;>
    rcases searchAux_trace_events chairs ride maxD stepD
      (searchFuel maxD stepD) stepD _ h with h1 | ⟨r, h1⟩ <;>
    simp at h1

/-- Absence from both halves of a concatenation. -/
lemma ev_not_mem_append (a : Ev) (l1 l2 : List Ev) (h1 : a ∉ l1) (h2 : a ∉ l2) :
    a ∉ l1 ++ l2 := by
  intro h
  rcases List.mem_append.mp h with h3 | h3
  · exact h1 h3
  · exact h2 h3

/-! ## Branch lemmas for the matching handler -/

/-- Handler branch: no unmatched ride. -/
lemma internalGetMatching_noRide (db : DB) (f : FaultSpec)
    (hsel : selectOldestUnmatched db.rides = none) :
    internalGetMatching db f = (db, MatchOutcome.noRide, [Ev.beginTx, Ev.rollbackTx]) := by
  simp only [internalGetMatching, hsel]

/-- Handler branch: a ride was selected but the search found no chair. -/
lemma internalGetMatching_noChair (db : DB) (f : FaultSpec) (ride : RideRow)
    (hsel : selectOldestUnmatched db.rides = some ride)
    (hnone : (graduallyExpandSearch db.chairs ride 150 25).1 = none) :
    internalGetMatching db f =
      (db, MatchOutcome.noChair,
        Ev.beginTx :: Ev.lockRide ride.id ::
          (graduallyExpandSearch db.chairs ride 150 25).2 ++ [Ev.rollbackTx]) := by
  simp only [internalGetMatching, hsel, hnone]

/-- Handler branch: the ride-update write fails; everything rolls back. -/
lemma internalGetMatching_failRide (db : DB) (f : FaultSpec) (ride : RideRow)
    (chair : ChairWithDistance)
    (hsel : selectOldestUnmatched db.rides = some ride)
    (hchair : (graduallyExpandSearch db.chairs ride 150 25).1 = some chair)
    (hf : f.failRideUpdate = true) :
    internalGetMatching db f =
      (db, MatchOutcome.failure,
        Ev.beginTx :: Ev.lockRide ride.id ::
          (graduallyExpandSearch db.chairs ride 150 25).2 ++ [Ev.rollbackTx]) := by
  simp only [internalGetMatching, hsel, hchair, hf, if_true]

/-- Handler branch: the chair-update write fails; everything rolls back. -/
lemma internalGetMatching_failChair (db : DB) (f : FaultSpec) (ride : RideRow)
    (chair : ChairWithDistance)
    (hsel : selectOldestUnmatched db.rides = some ride)
    (hchair : (graduallyExpandSearch db.chairs ride 150 25).1 = some chair)
    (hf1 : f.failRideUpdate = false) (hf2 : f.failChairUpdate = true) :
    internalGetMatching db f =
      (db, MatchOutcome.failure,
        Ev.beginTx :: Ev.lockRide ride.id ::
          (graduallyExpandSearch db.chairs ride 150 25).2 ++
            [Ev.writeRide ride.id chair.id, Ev.rollbackTx]) := by
  simp [internalGetMatching, hsel, hchair, hf1, hf2]

/-- Handler branch: the commit fails; everything rolls back. -/
lemma internalGetMatching_failCommit (db : DB) (f : FaultSpec) (ride : RideRow)
    (chair : ChairWithDistance)
    (hsel : selectOldestUnmatched db.rides = some ride)
    (hchair : (graduallyExpandSearch db.chairs ride 150 25).1 = some chair)
    (hf1 : f.failRideUpdate = false) (hf2 : f.failChairUpdate = false)
    (hf3 : f.failCommit = true) :
    internalGetMatching db f =
      (db, MatchOutcome.failure,
        Ev.beginTx :: Ev.lockRide ride.id ::
          (graduallyExpandSearch db.chairs ride 150 25).2 ++
            [Ev.writeRide ride.id chair.id, Ev.writeChair chair.id,
              Ev.rollbackTx]) := by
  simp [internalGetMatching, hsel, hchair, hf1, hf2, hf3]

/-- Handler branch: both writes and the commit succeed. -/
lemma internalGetMatching_commit (db : DB) (f : FaultSpec) (ride : RideRow)
    (chair : ChairWithDistance)
    (hsel : selectOldestUnmatched db.rides = some ride)
    (hchair : (graduallyExpandSearch db.chairs ride 150 25).1 = some chair)
    (hf1 : f.failRideUpdate = false) (hf2 : f.failChairUpdate = false)
    (hf3 : f.failCommit = false) :
    internalGetMatching db f =
      (⟨updateRideChair db.rides ride.id chair.id,
          updateChairInUse db.chairs chair.id⟩,
        MatchOutcome.matched ride.id chair.id,
        Ev.beginTx :: Ev.lockRide ride.id ::
          (graduallyExpandSearch db.chairs ride 150 25).2 ++
            [Ev.writeRide ride.id chair.id, Ev.writeChair chair.id,
              Ev.commitTx]) := by
  simp [internalGetMatching, hsel, hchair, hf1, hf2, hf3]

/-! ## Claim theorems: expanding search (C2) -/

/-- **C2.** At the source's constants (`step = 25`, `R = 150`): the search
returns no chair exactly when every radius `25, 50, ..., 150` is empty; it
stops at the first radius holding a chair — returning that radius's nearest
chair and never expanding further; and when it returns no chair the handler
reports the no-unit-available outcome. -/
theorem claim_c2_expanding_search (db : DB) (ride : RideRow) (f : FaultSpec) :
    ((graduallyExpandSearch db.chairs ride 150 25).1 = none ↔
      ∀ k : Nat, k < 6 → chairAtRadius db.chairs ride (25 + 25 * k) = none) ∧
    (∀ k : Nat, k < 6 →
      (∀ j : Nat, j < k → chairAtRadius db.chairs ride (25 + 25 * j) = none) →
      ∀ c, chairAtRadius db.chairs ride (25 + 25 * k) = some c →
        (graduallyExpandSearch db.chairs ride 150 25).1 = some c) ∧
    (∀ r0 : RideRow, selectOldestUnmatched db.rides = some r0 →
      (graduallyExpandSearch db.chairs r0 150 25).1 = none →
      (internalGetMatching db f).2.1 = MatchOutcome.noChair) := by
  have hs : (0 : ℚ) ≤ 25 := by norm_num
  have hbound : ∀ k : Nat, k < 6 → (25 : ℚ) + 25 * k ≤ 150 := by
    intro k hk
    have hk5 : (k : ℚ) ≤ 5 := by exact_mod_cast Nat.lt_succ_iff.mp hk
    linarith
  have hrev : ∀ k : Nat, (25 : ℚ) + 25 * k ≤ 150 → k < 6 := by
    intro k hk
    by_contra hcon
    push_neg at hcon
    have h6 : (6 : ℚ) ≤ (k : ℚ) := by exact_mod_cast hcon
    linarith
  refine ⟨?_, ?_, ?_⟩
  · simp only [graduallyExpandSearch, searchFuel_150_25]
    rw [searchAux_none_iff db.chairs ride 150 25 hs 7 25]
    constructor
    · intro H k hk
      exact H k (by omega) (hbound k hk)
    · intro H k hk hkle
      exact H k (hrev k hkle)
  · intro k hk hprev c hc
    simp only [graduallyExpandSearch, searchFuel_150_25]
    exact searchAux_first_some db.chairs ride 150 25 hs 7 25 k (by omega)
      (hbound k hk) hprev c hc
  · intro r0 hsel hnone
    rw [internalGetMatching_noChair db f r0 hsel hnone]

/-- Witness ride for C2. -/
def ride2 : RideRow := ⟨"r1", 0, 0, none, 0⟩

/-- Witness chair for C2, outside the first ring but inside the second. -/
def chair2 : ChairRow := ⟨"c1", true, false, 30, 0⟩

/-- Witness database for C2. -/
def db2 : DB := ⟨[], [chair2]⟩

/-- The chair the witness search finds. -/
noncomputable def chairFound2 : ChairWithDistance := withDistance ride2 chair2

/-- No injected storage faults. -/
def faultNone : FaultSpec := ⟨false, false, false⟩

/-- C2 applied to a chair visible at radius 50 but not 25: the search stops at
the second ring and returns it. -/
theorem claim_c2_witness :
    chairAtRadius db2.chairs ride2 25 = none ∧
    chairAtRadius db2.chairs ride2 50 = some chairFound2 ∧
    (graduallyExpandSearch db2.chairs ride2 150 25).1 = some chairFound2 := by
  have h25 : chairAtRadius db2.chairs ride2 25 = none := by
    rw [chairAtRadius_none_iff]
    norm_num [eligibleInBox, db2, chair2, ride2]
  have h50 : chairAtRadius db2.chairs ride2 50 = some chairFound2 := by
    simp only [chairAtRadius, calculateBoundingBox, findNearestChair]
    have he : eligibleInBox db2.chairs (ride2.pickupLatitude - 50)
        (ride2.pickupLatitude + 50) (ride2.pickupLongitude - 50)
        (ride2.pickupLongitude + 50) = [chair2] := by
      norm_num [eligibleInBox, db2, chair2, ride2]
    rw [he, nearestFold_none_cons]
    simp only [nearestFold]
    rfl
  refine ⟨h25, h50, ?_⟩
  refine (claim_c2_expanding_search db2 ride2 faultNone).2.1 1 (by omega) ?_
    chairFound2 ?_
  · intro j hj
    have hj0 : j = 0 := by omega
    subst hj0
    show chairAtRadius db2.chairs ride2 (25 + 25 * ((0 : ℕ) : ℚ)) = none
    have hc : (25 : ℚ) + 25 * ((0 : ℕ) : ℚ) = 25 := by push_cast; norm_num
    rw [hc]
    exact h25
  · show chairAtRadius db2.chairs ride2 (25 + 25 * ((1 : ℕ) : ℚ)) = some chairFound2
    have hc : (25 : ℚ) + 25 * ((1 : ℕ) : ℚ) = 50 := by push_cast; norm_num
    rw [hc]
    exact h50

/-! ## Claim theorems: ride selection and transaction scope (C5, C6, C8) -/

/-- **C5.** When an unmatched ride exists, the handler selects one with the
earliest creation timestamp among the unmatched rides, and — for every fault
pattern — its operation trace is a single transaction: it opens with `BEGIN`
followed immediately by the `FOR UPDATE` row lock on the chosen ride, every
other operation (queries, sleeps, the two writes) sits strictly between that
lock and the sole terminating `COMMIT`/`ROLLBACK`. -/
theorem claim_c5_oldest_ride_locked (db : DB)
    (h : ∃ r ∈ db.rides, r.chairId = none) :
    ∃ ride, selectOldestUnmatched db.rides = some ride ∧ ride ∈ db.rides ∧
      ride.chairId = none ∧
      (∀ r ∈ db.rides, r.chairId = none → ride.createdAt ≤ r.createdAt) ∧
      ∀ f : FaultSpec, ∃ mid endEv,
        (internalGetMatching db f).2.2 =
          Ev.beginTx :: Ev.lockRide ride.id :: mid ++ [endEv] ∧
        (endEv = Ev.commitTx ∨ endEv = Ev.rollbackTx) ∧
        Ev.beginTx ∉ mid ∧ Ev.commitTx ∉ mid ∧ Ev.rollbackTx ∉ mid := by
  obtain ⟨ride, hsel, hmem, hnone, hmin⟩ := selectOldestUnmatched_spec db.rides h
  refine ⟨ride, hsel, hmem, hnone, hmin, ?_⟩
  intro f
  obtain ⟨hb, hc, hr⟩ := search_trace_no_tx db.chairs ride 150 25
  rcases hchair : (graduallyExpandSearch db.chairs ride 150 25).1 with _ | chair
  · exact ⟨(graduallyExpandSearch db.chairs ride 150 25).2, Ev.rollbackTx,
      by rw [internalGetMatching_noChair db f ride hsel hchair], Or.inr rfl,
      hb, hc, hr⟩
  · cases hf1 : f.failRideUpdate
    · cases hf2 : f.failChairUpdate
      · cases hf3 : f.failCommit
        · refine ⟨(graduallyExpandSearch db.chairs ride 150 25).2 ++
              [Ev.writeRide ride.id chair.id, Ev.writeChair chair.id],
              Ev.commitTx, ?_, Or.inl rfl, ?_, ?_, ?_⟩
          · rw [internalGetMatching_commit db f ride chair hsel hchair hf1 hf2 hf3]
            simp
          · exact ev_not_mem_append _ _ _ hb (by simp)
          · exact ev_not_mem_append _ _ _ hc (by simp)
          · exact ev_not_mem_append _ _ _ hr (by simp)
        · refine ⟨(graduallyExpandSearch db.chairs ride 150 25).2 ++
              [Ev.writeRide ride.id chair.id, Ev.writeChair chair.id],
              Ev.rollbackTx, ?_, Or.inr rfl, ?_, ?_, ?_⟩
          · rw [internalGetMatching_failCommit db f ride chair hsel hchair hf1 hf2 hf3]
            simp
          · exact ev_not_mem_append _ _ _ hb (by simp)
          · exact ev_not_mem_append _ _ _ hc (by simp)
          · exact ev_not_mem_append _ _ _ hr (by simp)
      · refine ⟨(graduallyExpandSearch db.chairs ride 150 25).2 ++
            [Ev.writeRide ride.id chair.id], Ev.rollbackTx, ?_, Or.inr rfl,
            ?_, ?_, ?_⟩
        · rw [internalGetMatching_failChair db f ride chair hsel hchair hf1 hf2]
          simp
        · exact ev_not_mem_append _ _ _ hb (by simp)
        · exact ev_not_mem_append _ _ _ hc (by simp)
        · exact ev_not_mem_append _ _ _ hr (by simp)
    · exact ⟨(graduallyExpandSearch db.chairs ride 150 25).2, Ev.rollbackTx,
        by rw [internalGetMatching_failRide db f ride chair hsel hchair hf1],
        Or.inr rfl, hb, hc, hr⟩

/-- Witness database for C5: two unmatched rides, `"r1"` older. -/
def db5 : DB := ⟨[⟨"r2", 0, 0, none, 5⟩, ⟨"r1", 0, 0, none, 3⟩], []⟩

/-- C5 applied to `db5`. -/
theorem claim_c5_witness :
    (∃ r ∈ db5.rides, r.chairId = none) ∧
    ∃ ride, selectOldestUnmatched db5.rides = some ride ∧ ride ∈ db5.rides ∧
      ride.chairId = none ∧
      (∀ r ∈ db5.rides, r.chairId = none → ride.createdAt ≤ r.createdAt) ∧
      ∀ f : FaultSpec, ∃ mid endEv,
        (internalGetMatching db5 f).2.2 =
          Ev.beginTx :: Ev.lockRide ride.id :: mid ++ [endEv] ∧
        (endEv = Ev.commitTx ∨ endEv = Ev.rollbackTx) ∧
        Ev.beginTx ∉ mid ∧ Ev.commitTx ∉ mid ∧ Ev.rollbackTx ∉ mid :=
  ⟨by decide, claim_c5_oldest_ride_locked db5 (by decide)⟩

/-- **C6.** If the search finds no chair within the ceiling, the handler
reports no-unit-available and leaves the database unchanged; if either
assignment write fails, the transaction rolls back: the handler reports
failure and the database — including the still-unmatched ride — is unchanged. -/
theorem claim_c6_no_write_on_error (db : DB) (f : FaultSpec) (ride : RideRow)
    (hsel : selectOldestUnmatched db.rides = some ride) :
    ((graduallyExpandSearch db.chairs ride 150 25).1 = none →
      (internalGetMatching db f).1 = db ∧
      (internalGetMatching db f).2.1 = MatchOutcome.noChair) ∧
    (∀ chair, (graduallyExpandSearch db.chairs ride 150 25).1 = some chair →
      f.failRideUpdate = true ∨ f.failChairUpdate = true →
      (internalGetMatching db f).1 = db ∧
      (internalGetMatching db f).2.1 = MatchOutcome.failure) := by
  constructor
  · intro hnone
    rw [internalGetMatching_noChair db f ride hsel hnone]
    exact ⟨rfl, rfl⟩
  · intro chair hchair hor
    rcases hor with hf | hf
    · rw [internalGetMatching_failRide db f ride chair hsel hchair hf]
      exact ⟨rfl, rfl⟩
    · cases hf1 : f.failRideUpdate
      · rw [internalGetMatching_failChair db f ride chair hsel hchair hf1 hf]
        exact ⟨rfl, rfl⟩
      · rw [internalGetMatching_failRide db f ride chair hsel hchair hf1]
        exact ⟨rfl, rfl⟩

/-- Witness ride for C6. -/
def ride6 : RideRow := ⟨"r1", 0, 0, none, 0⟩

/-- Witness chair for C6, inside the first ring. -/
def chair6 : ChairRow := ⟨"c1", true, false, 1, 1⟩

/-- Witness database for C6. -/
def db6 : DB := ⟨[ride6], [chair6]⟩

/-- Fault pattern for C6: the ride-update write fails. -/
def fault6 : FaultSpec := ⟨true, false, false⟩

/-- The chair the C6 witness search finds. -/
noncomputable def chairFound6 : ChairWithDistance := withDistance ride6 chair6

/-- The C6 witness search succeeds at the first ring. -/
lemma search6 : (graduallyExpandSearch db6.chairs ride6 150 25).1 = some chairFound6 := by
  have hq : chairAtRadius db6.chairs ride6 25 = some chairFound6 := by
    simp only [chairAtRadius, calculateBoundingBox, findNearestChair]
    have he : eligibleInBox db6.chairs (ride6.pickupLatitude - 25)
        (ride6.pickupLatitude + 25) (ride6.pickupLongitude - 25)
        (ride6.pickupLongitude + 25) = [chair6] := by
      norm_num [eligibleInBox, db6, chair6, ride6]
    rw [he, nearestFold_none_cons]
    simp only [nearestFold]
    rfl
  simp only [graduallyExpandSearch, searchFuel_150_25]
  rw [show (7 : ℕ) = 6 + 1 from rfl]
  rw [searchAux_step_some db6.chairs ride6 150 25 25 6 chairFound6 (by norm_num) hq]

/-- C6 applied to `db6` with a failing ride-update write. -/
theorem claim_c6_witness :
    selectOldestUnmatched db6.rides = some ride6 ∧
    (graduallyExpandSearch db6.chairs ride6 150 25).1 = some chairFound6 ∧
    fault6.failRideUpdate = true ∧
    (internalGetMatching db6 fault6).1 = db6 ∧
    (internalGetMatching db6 fault6).2.1 = MatchOutcome.failure :=
  ⟨rfl, search6, rfl,
    ((claim_c6_no_write_on_error db6 fault6 ride6 rfl).2 chairFound6 search6
      (Or.inl rfl)).1,
    ((claim_c6_no_write_on_error db6 fault6 ride6 rfl).2 chairFound6 search6
      (Or.inl rfl)).2⟩

/-- **C8 amended.** The pause between radius-expansion steps happens while the
transaction — begun before the `FOR UPDATE` ride selection — is still open:
the whole search trace, sleeps included, sits strictly between the row lock
on the chosen ride and the transaction's terminating `COMMIT`/`ROLLBACK`;
the transaction scope spans the entire expanding search, not only the final
write. -/
theorem claim_c8_sleep_inside_tx (db : DB) (f : FaultSpec) (ride : RideRow)
    (hsel : selectOldestUnmatched db.rides = some ride) :
    ∃ rest endEv,
      (internalGetMatching db f).2.2 =
        Ev.beginTx :: Ev.lockRide ride.id ::
          ((graduallyExpandSearch db.chairs ride 150 25).2 ++ rest) ++ [endEv] ∧
      (endEv = Ev.commitTx ∨ endEv = Ev.rollbackTx) := by
  rcases hchair : (graduallyExpandSearch db.chairs ride 150 25).1 with _ | chair
  · refine ⟨[], Ev.rollbackTx, ?_, Or.inr rfl⟩
    rw [internalGetMatching_noChair db f ride hsel hchair]
    simp
  · cases hf1 : f.failRideUpdate
    · cases hf2 : f.failChairUpdate
      · cases hf3 : f.failCommit
        · refine ⟨[Ev.writeRide ride.id chair.id, Ev.writeChair chair.id],
            Ev.commitTx, ?_, Or.inl rfl⟩
          rw [internalGetMatching_commit db f ride chair hsel hchair hf1 hf2 hf3]
          simp
        · refine ⟨[Ev.writeRide ride.id chair.id, Ev.writeChair chair.id],
            Ev.rollbackTx, ?_, Or.inr rfl⟩
          rw [internalGetMatching_failCommit db f ride chair hsel hchair hf1 hf2 hf3]
          simp
      · refine ⟨[Ev.writeRide ride.id chair.id], Ev.rollbackTx, ?_, Or.inr rfl⟩
        rw [internalGetMatching_failChair db f ride chair hsel hchair hf1 hf2]
        simp
    · refine ⟨[], Ev.rollbackTx, ?_, Or.inr rfl⟩
      rw [internalGetMatching_failRide db f ride chair hsel hchair hf1]
      simp

/-- Witness ride for C8. -/
def ride8 : RideRow := ⟨"r1", 0, 0, none, 0⟩

/-- Witness database for C8: one unmatched ride and no chairs at all, so the
search walks every ring and sleeps after each. -/
def db8 : DB := ⟨[ride8], []⟩

/-- With no chairs, the search never finds one. -/
lemma searchAux_nil_fst (ride : RideRow) (maxD stepD : ℚ) :
    ∀ fuel current,
      (graduallyExpandSearchAux [] ride maxD stepD current fuel).1 = none := by
  intro fuel
  induction fuel with
  | zero =>
    intro current
    rfl
  | succ n ih =>
    intro current
    by_cases hc : current ≤ maxD
    · have hq : chairAtRadius [] ride current = none := by
        rw [chairAtRadius_none_iff]
        rfl
      rw [searchAux_step_none [] ride maxD stepD current n hc hq]
      exact ih (current + stepD)
    · rw [searchAux_step_over [] ride maxD stepD current n hc]

/-- The C8 search finds no chair. -/
lemma search8_none : (graduallyExpandSearch db8.chairs ride8 150 25).1 = none :=
  searchAux_nil_fst ride8 150 25 (searchFuel 150 25) 25

/-- The C8 search trace contains a sleep. -/
lemma search8_sleep : Ev.sleep ∈ (graduallyExpandSearch db8.chairs ride8 150 25).2 := by
  have hq : chairAtRadius db8.chairs ride8 25 = none := by
    rw [chairAtRadius_none_iff]
    rfl
  simp only [graduallyExpandSearch, searchFuel_150_25]
  rw [show (7 : ℕ) = 6 + 1 from rfl]
  rw [searchAux_step_none db8.chairs ride8 150 25 25 6 (by norm_num) hq]
  simp

/-- **C8 counterexample.** On `db8` the handler's trace holds a sleep strictly
inside the open transaction (between the `FOR UPDATE` lock and the rollback),
contradicting the claim that the pause never occurs while the transaction and
the ride lock are held. -/
theorem claim_c8_counterexample :
    ∃ mid, (internalGetMatching db8 faultNone).2.2 =
        Ev.beginTx :: Ev.lockRide "r1" :: mid ++ [Ev.rollbackTx] ∧
      Ev.sleep ∈ mid := by
  refine ⟨(graduallyExpandSearch db8.chairs ride8 150 25).2, ?_, search8_sleep⟩
  rw [internalGetMatching_noChair db8 faultNone ride8 rfl search8_none]
  rfl

/-- C8 (amended) applied to `db8`. -/
theorem claim_c8_witness :
    selectOldestUnmatched db8.rides = some ride8 ∧
    ∃ rest endEv,
      (internalGetMatching db8 faultNone).2.2 =
        Ev.beginTx :: Ev.lockRide ride8.id ::
          ((graduallyExpandSearch db8.chairs ride8 150 25).2 ++ rest) ++ [endEv] ∧
      (endEv = Ev.commitTx ∨ endEv = Ev.rollbackTx) :=
  ⟨rfl, claim_c8_sleep_inside_tx db8 faultNone ride8 rfl⟩
